import Mathlib

/-!
Shallow embedding of `src/confluent_cloud_sdk/confluent_iam_v2.py`.

The module is CRUD glue over an injected HTTP client: each Python method is
translated into a pure Lean function that, given the object's state (and,
for methods that perform a network call, the JSON body the transport would
return for that call), produces the request it issues (URL and payload) and
the new object state.  Python optional-string attributes become
`Option String`; Python truthiness (`if self._x:`) of such attributes is
`pyTruthy`; f-string interpolation of a possibly-`None` value is `pyStr`.
JSON response bodies are modelled by structures carrying exactly the keys
the code reads (the code would raise `KeyError` on anything narrower, which
is outside every claim's scope).  Fallible paths (a Python `raise`) return
`Except.error`.
-/

/-- Python truthiness of an optional string: `None` and `""` are falsy,
every other string is truthy. -/
def pyTruthy (o : Option String) : Bool :=
  match o with
  | none => false
  | some s => !s.isEmpty

/-- Python f-string rendering of an optional string: `None` interpolates as
the text `"None"`, a string interpolates as itself. -/
def pyStr (o : Option String) : String :=
  match o with
  | none => "None"
  | some s => s

/-- Model of Python `str.title()` (ASCII range, which covers every string
the code and the spec exercise): the first cased character of each run of
letters is uppercased, the following letters of the run are lowercased,
non-letters pass through and end the run. -/
def pyTitle (s : String) : String :=
  (s.data.foldl
    (fun acc c =>
      if c.isAlpha then (acc.1.push (if acc.2 then c.toLower else c.toUpper), true)
      else (acc.1.push c, false))
    ("", false)).1

/-- Left-to-right non-overlapping replacement over character lists, with
explicit fuel so that the recursion is structural and kernel-reducible.
Each step consumes at least one character of the input, so fuel equal to
the input length is enough. -/
def pyReplaceAux (pat rep : List Char) : Nat → List Char → List Char
  | 0, l => l
  | _, [] => []
  | fuel + 1, c :: rest =>
    if pat.isPrefixOf (c :: rest) then
      rep ++ pyReplaceAux pat rep fuel ((c :: rest).drop pat.length)
    else
      c :: pyReplaceAux pat rep fuel rest

/-- Model of Python `str.replace(pat, rep)`: replace every non-overlapping
occurrence of `pat`, scanning left to right.  (Python's behaviour for an
empty pattern is never exercised by the code, which only replaces `"::"`;
we return the string unchanged there.) -/
def pyReplace (s pat rep : String) : String :=
  if pat.isEmpty then s
  else String.mk (pyReplaceAux pat.data rep.data s.data.length s.data)

/-- The injected transport/client (`client_factory`): the only piece of it
this module reads is `api_url`, used as the base of every constructed URL.
The network itself is modelled by passing each method the JSON body its
call would return. -/
structure ConfluentClient where
  api_url : String
deriving DecidableEq

/-- JSON `metadata` object: the code only ever reads `metadata["self"]`. -/
structure Metadata where
  self : String
deriving DecidableEq

/-- Service-account entity shape, as read by the code:
`{id, display_name, description, metadata: {self}}`. -/
structure SAEntity where
  id : String
  display_name : String
  description : String
  metadata : Metadata
deriving DecidableEq

/-- A JSON object holding a single `id` key, as in `spec.owner` /
`spec.resource` of an API-key entity. -/
structure IdRef where
  id : String
deriving DecidableEq

/-- API-key entity `spec` object, as read by the code: `owner.id`,
`resource.id`, `secret` (creation response only). -/
structure ApiKeySpec where
  owner : IdRef
  resource : IdRef
  secret : String
deriving DecidableEq

/-- API-key entity shape, as read by the code:
`{id, metadata: {self}, spec: {owner, resource, secret}}`. -/
structure ApiKeyEntity where
  id : String
  metadata : Metadata
  spec : ApiKeySpec
deriving DecidableEq

/-- Instance state of `IamV2Object` after `__init__`: the five attributes
the base class assigns (`_client`, `_id`, `_name`, `_description`, `_href`,
`api_path`). -/
structure IamV2Object where
  _client : ConfluentClient
  _id : Option String
  _name : Option String
  _description : Option String
  _href : Option String
  api_path : Option String
deriving DecidableEq

namespace IamV2Object

/-- Class attribute `api_v2_path = "/iam/v2"`. -/
def api_v2_path : String := "/iam/v2"

/-- Class attribute `api_keys_path`. -/
def api_keys_path : String := api_v2_path ++ "/api-keys"

/-- Class attribute `services_accounts_path`. -/
def services_accounts_path : String := api_v2_path ++ "/service-accounts"

/-- Constructor `IamV2Object.__init__(client_factory, display_name, description)`. -/
def init (client_factory : ConfluentClient)
    (display_name description : Option String) : IamV2Object :=
  { _client := client_factory
    _id := none
    _name := display_name
    _description := description
    _href := none
    api_path := none }

/-- Property getter `obj_id`. -/
def obj_id (o : IamV2Object) : Option String :=
  o._id

/-- Property setter `obj_id`. -/
def set_obj_id (o : IamV2Object) (id_value : Option String) : IamV2Object :=
  { o with _id := id_value }

/-- Property getter `href`: `if self._href: return self._href` (Python
truthiness, so an empty-string `_href` falls through), otherwise the
f-string `api_url + api_path + "/" + obj_id` with `None` rendering as the
text `"None"`. -/
def href (o : IamV2Object) : String :=
  if pyTruthy o._href then pyStr o._href
  else o._client.api_url ++ pyStr o.api_path ++ "/" ++ pyStr o.obj_id

/-- Property setter `href`. -/
def set_href (o : IamV2Object) (url : String) : IamV2Object :=
  { o with _href := some url }

/-- Method `list()`: returns the GET collection URL if `api_path` is truthy,
else `None` (no request issued).  State is untouched. -/
def listReq (o : IamV2Object) : Option String :=
  if pyTruthy o.api_path then some (o._client.api_url ++ pyStr o.api_path)
  else none

/-- Method `read()`: GET against `href`; returns the raw response to the caller
and leaves the state untouched. -/
def read (o : IamV2Object) : String × IamV2Object :=
  (o.href, o)

/-- The PATCH body `{"description": description}` sent by `update`. -/
structure PatchBody where
  description : String
deriving DecidableEq

/-- Method `update(description)`: PATCH to `href` with body `{description}`;
returns the raw response and leaves the state untouched. -/
def update (o : IamV2Object) (description : String) :
    (String × PatchBody) × IamV2Object :=
  ((o.href, { description := description }), o)

/-- Method `delete()`: DELETE to `href`; returns the raw response and leaves the
state untouched. -/
def delete (o : IamV2Object) : String × IamV2Object :=
  (o.href, o)

end IamV2Object

/-- Instance state of `ApiKey`: the base attributes plus `_resource_id`,
`_owner_id`, `_secret`. -/
structure ApiKey extends IamV2Object where
  _resource_id : Option String
  _owner_id : Option String
  _secret : Option String
deriving DecidableEq

namespace ApiKey

/-- Constructor `ApiKey.__init__(client_factory, obj_id, display_name, description,
owner_id, resource_id)`: calls the base initializer first, then assigns
`_id = obj_id`, `_resource_id`, `_owner_id`, re-assigns `_href = None`,
sets `api_path = api_keys_path` and `_secret = None`. -/
def init (client_factory : ConfluentClient)
    (obj_id display_name description owner_id resource_id : Option String) :
    ApiKey :=
  let base := IamV2Object.init client_factory display_name description
  { toIamV2Object :=
      { base with
        _id := obj_id
        _href := none
        api_path := some IamV2Object.api_keys_path }
    _resource_id := resource_id
    _owner_id := owner_id
    _secret := none }

/-- Property getter `owner_id`. -/
def owner_id (k : ApiKey) : Option String :=
  k._owner_id

/-- Property getter `resource_id`. -/
def resource_id (k : ApiKey) : Option String :=
  k._resource_id

/-- The POST payload built by `ApiKey.create`:
`{"spec": {"owner": {"id": ...}, "resource": {"id": ...},
"display_name": ..., "description": ...}}`.  By the time the payload is
built the four values are genuine strings (the two ids are guarded by the
`raise` checks, the two texts end every resolution branch as a string). -/
structure CreatePayloadSpec where
  owner : IdRef
  resource : IdRef
  display_name : String
  description : String
deriving DecidableEq

/-- Wrapper for the payload's single `spec` key. -/
structure CreatePayload where
  spec : CreatePayloadSpec
deriving DecidableEq

/-- Method `ApiKey.create(owner_id, resource_id, display_name, description)`,
given the JSON body `resp` the transport would return for the POST.
Mirrors the source line by line: build the collection URL; raise
`AttributeError` if neither the `owner_id` argument nor the stored
`_owner_id` is truthy; resolve `owner_id`; same check and resolution for
`resource_id`; resolve `display_name` (argument, else stored `_name`, else
the f-string `owner_id + "::" + resource_id`); resolve `description`
(argument, else stored `_description`, else
`display_name.replace("::", " ").title()`); build the payload; POST; then
assign `obj_id`, `_href`, `_owner_id`, `_resource_id`, `_secret` from the
response.  Returns the issued request (URL and payload) and the new
state. -/
def create (k : ApiKey)
    (owner_id resource_id display_name description : Option String)
    (resp : ApiKeyEntity) :
    Except String ((String × CreatePayload) × ApiKey) :=
  let url := k._client.api_url ++ pyStr k.api_path
  if !pyTruthy owner_id && !pyTruthy k.owner_id then
    .error "Owner ID must be specified"
  else
    let owner_id_r : String :=
      if pyTruthy owner_id then pyStr owner_id else pyStr k._owner_id
    if !pyTruthy resource_id && !pyTruthy k.resource_id then
      .error "Resource ID must be specified"
    else
      let resource_id_r : String :=
        if pyTruthy resource_id then pyStr resource_id else pyStr k.resource_id
      let display_name_r : String :=
        if !pyTruthy display_name && !pyTruthy k._name then
          owner_id_r ++ "::" ++ resource_id_r
        else if !pyTruthy display_name && pyTruthy k._name then
          pyStr k._name
        else
          pyStr display_name
      let description_r : String :=
        if !pyTruthy description && !pyTruthy k._description then
          pyTitle (pyReplace display_name_r "::" " ")
        else if !pyTruthy description && pyTruthy k._description then
          pyStr k._description
        else
          pyStr description
      let payload : CreatePayload :=
        { spec :=
            { owner := { id := owner_id_r }
              resource := { id := resource_id_r }
              display_name := display_name_r
              description := description_r } }
      let spec := resp.spec
      .ok ((url, payload),
        { k with
          _id := some resp.id
          _href := some resp.metadata.self
          _owner_id := some spec.owner.id
          _resource_id := some spec.resource.id
          _secret := some spec.secret })

/-- Inherited `read()` dispatched on an `ApiKey` receiver: the base body
returns the GET response and assigns nothing, so the extended state is
returned unchanged. -/
def read (k : ApiKey) : String × ApiKey :=
  (k.toIamV2Object.href, k)

/-- Inherited `update(description)` dispatched on an `ApiKey` receiver. -/
def update (k : ApiKey) (description : String) :
    (String × IamV2Object.PatchBody) × ApiKey :=
  ((k.toIamV2Object.href, { description := description }), k)

/-- Inherited `delete()` dispatched on an `ApiKey` receiver. -/
def delete (k : ApiKey) : String × ApiKey :=
  (k.toIamV2Object.href, k)

end ApiKey

/-- Instance state of `ServiceAccount`: the base attributes plus the
`_api_keys` list. -/
structure ServiceAccount extends IamV2Object where
  _api_keys : List ApiKey
deriving DecidableEq

namespace ServiceAccount

/-- Constructor `ServiceAccount.__init__(client_factory, obj_id, display_name,
description)`: assigns `self._id = obj_id` and `self._href = None`, then
calls the base initializer — which re-assigns `self._id = None` and
`self._href = None`, discarding `obj_id` — then sets
`api_path = services_accounts_path` and `_api_keys = []`.  The net state
therefore has `_id = none` whatever `obj_id` was. -/
def init (client_factory : ConfluentClient)
    (obj_id display_name description : Option String) : ServiceAccount :=
  let base := IamV2Object.init client_factory display_name description
  { toIamV2Object := { base with api_path := some IamV2Object.services_accounts_path }
    _api_keys := [] }

/-- The POST payload built by `ServiceAccount.create`:
`{"display_name": self._name, "description": description}` — the
`display_name` value is whatever `self._name` holds (possibly `None`). -/
structure CreatePayload where
  display_name : Option String
  description : String
deriving DecidableEq

/-- Method `ServiceAccount.create()`, given the JSON body `resp` the transport
would return for the POST.  Mirrors the source: build the collection URL;
if `self._description` is falsy, `description = self._name.title()`
(raising `AttributeError` when `_name` is `None`), else the stored
description; build the payload; POST; then assign
`_href = resp["metadata"]["self"]` and `obj_id = resp["id"]`.  Returns the
issued request and the new state. -/
def create (s : ServiceAccount) (resp : SAEntity) :
    Except String ((String × CreatePayload) × ServiceAccount) :=
  let url := s._client.api_url ++ pyStr s.api_path
  match (if pyTruthy s._description then some (pyStr s._description)
         else (s._name.map pyTitle)) with
  | none => .error "AttributeError: NoneType object has no attribute title"
  | some description =>
    let payload : CreatePayload :=
      { display_name := s._name, description := description }
    .ok ((url, payload),
      { s with
        _href := some resp.metadata.self
        _id := some resp.id })

/-- Method `ServiceAccount.import_api_keys()`, given the JSON body `resp` the
transport would return for the GET: build
`api_url + api_keys_path + "?owner=" + obj_id`; for each entry of
`resp["data"]` in order, construct
`ApiKey(client, obj_id=entry["id"], owner_id=self.obj_id,
resource_id=entry["spec"]["resource"]["id"])` and append it to
`_api_keys`.  Returns the issued GET URL and the new state. -/
def import_api_keys (s : ServiceAccount) (resp : List ApiKeyEntity) :
    String × ServiceAccount :=
  let url := s._client.api_url ++ IamV2Object.api_keys_path ++ "?owner=" ++
    pyStr s.obj_id
  (url,
    resp.foldl
      (fun acc entry =>
        let new_key := ApiKey.init s._client (some entry.id) none none
          s.obj_id (some entry.spec.resource.id)
        { acc with _api_keys := acc._api_keys ++ [new_key] })
      s)

/-- Inherited `read()` dispatched on a `ServiceAccount` receiver. -/
def read (s : ServiceAccount) : String × ServiceAccount :=
  (s.toIamV2Object.href, s)

/-- Inherited `update(description)` dispatched on a `ServiceAccount`
receiver. -/
def update (s : ServiceAccount) (description : String) :
    (String × IamV2Object.PatchBody) × ServiceAccount :=
  ((s.toIamV2Object.href, { description := description }), s)

/-- Inherited `delete()` dispatched on a `ServiceAccount` receiver. -/
def delete (s : ServiceAccount) : String × ServiceAccount :=
  (s.toIamV2Object.href, s)

/-- The body of the `for _account in accounts:` loop of `set_from_read`,
executed when the entry's display name matches: overwrites `_href`,
`_id` (via the `obj_id` setter), `_description` and `_name` from the
entry. -/
def adoptFrom (s : ServiceAccount) (entry : SAEntity) : ServiceAccount :=
  { s with
    _href := some entry.metadata.self
    _id := some entry.id
    _description := some entry.description
    _name := some entry.display_name }

/-- Which network call `set_from_read` performed, with its URL. -/
inductive SfrCall where
  | readCall (url : String)
  | listCall (url : String)
  | noCall
deriving DecidableEq

/-- Method `ServiceAccount.set_from_read(display_name, account_id)`, given the
JSON body `readResp` a `read()` would return and the `data` array
`listResp` a `list()` would return (only the branch actually taken
consults its oracle).  Mirrors the source: resolve `display_name` and
`account_id` (argument if truthy, else the stored attribute); if the
resolved id is truthy, set `obj_id` to it, `read()` by the resulting
`href`, and overwrite `_href`, `obj_id`, `_description`, `_name` from the
response; otherwise, if the resolved display name is truthy, call
`list()` (whose result is `None` when `api_path` is falsy, making the
subsequent `.json()` raise) and run the loop that adopts the fields of
every entry whose `display_name` equals the resolved name; otherwise do
nothing.  Returns the call performed and the new state. -/
def set_from_read (s : ServiceAccount)
    (display_name account_id : Option String)
    (readResp : SAEntity) (listResp : List SAEntity) :
    Except String (SfrCall × ServiceAccount) :=
  let display_name := if pyTruthy display_name then display_name else s._name
  let account_id := if pyTruthy account_id then account_id else s.obj_id
  if pyTruthy account_id then
    let s1 := { s with _id := account_id }
    let url := s1.toIamV2Object.href
    .ok (.readCall url,
      { s1 with
        _href := some readResp.metadata.self
        _id := some readResp.id
        _description := some readResp.description
        _name := some readResp.display_name })
  else if pyTruthy display_name then
    match s.toIamV2Object.listReq with
    | none => .error "AttributeError: NoneType object has no attribute json"
    | some url =>
      .ok (.listCall url,
        listResp.foldl
          (fun acc entry =>
            if some entry.display_name = display_name then adoptFrom acc entry
            else acc)
          s)
  else
    .ok (.noCall, s)

end ServiceAccount

/-! ### Basic facts about the Python-semantics helpers -/

@[simp]
theorem pyTruthy_none : pyTruthy none = false := rfl

@[simp]
theorem pyStr_some (s : String) : pyStr (some s) = s := rfl

@[simp]
theorem pyStr_none : pyStr none = "None" := rfl

theorem pyTruthy_some_iff (s : String) : pyTruthy (some s) = true ↔ s ≠ "" := by
  constructor
  · intro h he
    subst he
    exact absurd h (by decide)
  · intro h
    cases he : s.isEmpty
    · simp [pyTruthy, he]
    · exact absurd ((String.isEmpty_iff s).mp he) h

theorem pyTruthy_some_eq_false_iff (s : String) :
    pyTruthy (some s) = false ↔ s = "" := by
  rw [← Bool.not_eq_true, pyTruthy_some_iff]
  exact not_ne_iff

theorem pyTruthy_eq_false_iff (o : Option String) :
    pyTruthy o = false ↔ o = none ∨ o = some "" := by
  cases o with
  | none => simp
  | some s =>
    rw [pyTruthy_some_eq_false_iff]
    constructor
    · intro h
      exact Or.inr (by rw [h])
    · rintro (h | h)
      · exact absurd h (by simp)
      · injection h

/-! ### Concrete fixtures used by witnesses and counterexamples -/

/-- A concrete injected client. -/
def demoClient : ConfluentClient :=
  { api_url := "https://api.confluent.cloud" }

/-- Fixture `ServiceAccount(client, display_name="svc-a")`. -/
def demoAccount : ServiceAccount :=
  ServiceAccount.init demoClient none (some "svc-a") none

/-- Fixture `ApiKey(client, owner_id="o1", resource_id="r1")`. -/
def demoKey : ApiKey :=
  ApiKey.init demoClient none none none (some "o1") (some "r1")

/-! ### Claims -/

/-- Claim C10: a `ServiceAccount` constructed with an explicit `obj_id`
argument stores `None` as its id: the constructor assigns the argument to
`_id` and then calls the base initializer, which unconditionally resets
`_id` to `None`, so the argument is silently discarded. -/
theorem C10_constructor_discards_obj_id (c : ConfluentClient) (i : String)
    (display_name description : Option String) :
    (ServiceAccount.init c (some i) display_name description)._id = none := rfl

/-- Claim C8: on a proxy with no explicitly-set link, a configured api
path, and an absent id, `href` does not raise: it returns the malformed
URL `api_url + api_path + "/" + "None"`, the f-string rendering of the
absent id. -/
theorem C8_href_absent_id_malformed (o : IamV2Object) (p : String)
    (h1 : o._href = none) (h2 : o._id = none) (h3 : o.api_path = some p) :
    o.href = o._client.api_url ++ p ++ "/" ++ "None" := by
  simp [IamV2Object.href, IamV2Object.obj_id, h1, h2, h3]

/-- Witness for C8: the freshly constructed `demoAccount` (no id, no
link) exhibits the malformed URL. -/
theorem C8_witness :
    demoAccount.toIamV2Object.href =
      demoAccount.toIamV2Object._client.api_url ++
        "/iam/v2/service-accounts" ++ "/" ++ "None" :=
  C8_href_absent_id_malformed demoAccount.toIamV2Object
    "/iam/v2/service-accounts" rfl rfl rfl

/-- Claim C7: `read()`, `update(description)` and `delete()` leave every
local field of an Account or Credential unchanged; in particular a
Credential's `_secret` is never overwritten by them. -/
theorem C7_read_update_delete_frame (a : ServiceAccount) (k : ApiKey)
    (d d2 : String) :
    (a.read).2 = a ∧ (a.update d).2 = a ∧ (a.delete).2 = a ∧
    (k.read).2 = k ∧ (k.update d2).2 = k ∧ (k.delete).2 = k ∧
    ((k.read).2)._secret = k._secret ∧ ((k.update d2).2)._secret = k._secret ∧
    ((k.delete).2)._secret = k._secret :=
  ⟨rfl, rfl, rfl, rfl, rfl, rfl, rfl, rfl, rfl⟩

/-- Claim C3 as stated is false: an explicitly-set link is NOT always
returned unchanged.  Setting the link to the empty string (falsy in
Python) makes `href` fall through to the derived URL: here `_href` has
been explicitly set to `""` yet `href` returns the id-derived URL instead
of `""`. -/
theorem C3_counterexample :
    ((demoAccount.toIamV2Object.set_obj_id (some "sa-1")).set_href "")._href
        = some "" ∧
    ((demoAccount.toIamV2Object.set_obj_id (some "sa-1")).set_href "").href
        = "https://api.confluent.cloud/iam/v2/service-accounts/sa-1" ∧
    "https://api.confluent.cloud/iam/v2/service-accounts/sa-1" ≠ "" :=
  ⟨rfl, rfl, by decide⟩

/-- Claim C3 (amended): `href` returns the explicitly-set link unchanged
whenever the set link is non-empty, regardless of id; when no link is set
— or the set link is the empty string — and an id is set, `href` equals
`api_url + api_path + "/" + id`.  `href` is a pure function of the state
(it modifies nothing and repeated calls agree by definition). -/
theorem C3_href_amended (o : IamV2Object) (s i p : String) :
    ((o._href = some s ∧ s ≠ "") → o.href = s) ∧
    ((o._href = none ∨ o._href = some "") → o.api_path = some p →
      o._id = some i → o.href = o._client.api_url ++ p ++ "/" ++ i) := by
  constructor
  · rintro ⟨h1, h2⟩
    simp [IamV2Object.href, h1, (pyTruthy_some_iff s).mpr h2]
  · rintro (h1 | h1) h2 h3 <;>
      simp [IamV2Object.href, IamV2Object.obj_id, h1, h2, h3,
        (pyTruthy_some_eq_false_iff "").mpr rfl]

/-- Witness for the amended C3: a non-empty explicitly-set link is
returned unchanged even though an id is set, and with no link set the
URL is derived from the id. -/
theorem C3_witness :
    ((demoAccount.toIamV2Object.set_obj_id (some "sa-1")).set_href
        "https://x/sa-1").href = "https://x/sa-1" ∧
    (demoAccount.toIamV2Object.set_obj_id (some "sa-1")).href =
      (demoAccount.toIamV2Object.set_obj_id (some "sa-1"))._client.api_url ++
        "/iam/v2/service-accounts" ++ "/" ++ "sa-1" :=
  ⟨(C3_href_amended _ "https://x/sa-1" "" "").1 ⟨rfl, by decide⟩,
   (C3_href_amended _ "" "sa-1" "/iam/v2/service-accounts").2
     (Or.inl rfl) rfl rfl⟩

/-- A concrete creation-response body for a Credential, whose `spec`
deliberately differs from any request payload (the server normalizes). -/
def demoKeyResp : ApiKeyEntity :=
  { id := "ak-1"
    metadata := { self := "https://x/ak-1" }
    spec :=
      { owner := { id := "o1-normalized" }
        resource := { id := "r1-normalized" }
        secret := "s3cr3t" } }

/-- Claim C2: `ApiKey.create` with no resolvable owner id (argument and
stored value both falsy) — or with a resolvable owner but no resolvable
resource id — raises the missing-required-attribute `AttributeError`
synchronously: the result is an error that is independent of whatever the
network would have answered (no request is issued), and no successor
state is produced, so no local field is modified. -/
theorem C2_create_missing_required (k : ApiKey)
    (owner_id resource_id display_name description : Option String)
    (resp resp2 : ApiKeyEntity) :
    (pyTruthy owner_id = false → pyTruthy k._owner_id = false →
      k.create owner_id resource_id display_name description resp =
          .error "Owner ID must be specified" ∧
      k.create owner_id resource_id display_name description resp =
        k.create owner_id resource_id display_name description resp2) ∧
    (pyTruthy resource_id = false → pyTruthy k._resource_id = false →
      (pyTruthy owner_id = true ∨ pyTruthy k._owner_id = true) →
      k.create owner_id resource_id display_name description resp =
          .error "Resource ID must be specified" ∧
      k.create owner_id resource_id display_name description resp =
        k.create owner_id resource_id display_name description resp2) := by
  constructor
  · intro h1 h2
    constructor <;>
      simp [ApiKey.create, ApiKey.owner_id, h1, h2]
  · intro h1 h2 h3
    rcases h3 with h | h <;> constructor <;>
      simp [ApiKey.create, ApiKey.owner_id, ApiKey.resource_id, h1, h2, h]

/-- Witness for C2: a key with only a resource id set fails on the owner
check with all-`None` arguments; a key with only an owner argument and no
resource fails on the resource check. -/
theorem C2_witness :
    (ApiKey.init demoClient none none none none (some "r1")).create
        none none none none demoKeyResp = .error "Owner ID must be specified" ∧
    (ApiKey.init demoClient none none none none none).create
        (some "o1") none none none demoKeyResp =
      .error "Resource ID must be specified" :=
  ⟨((C2_create_missing_required
      (ApiKey.init demoClient none none none none (some "r1"))
      none none none none demoKeyResp demoKeyResp).1 rfl rfl).1,
   ((C2_create_missing_required
      (ApiKey.init demoClient none none none none none)
      (some "o1") none none none demoKeyResp demoKeyResp).2 rfl rfl
      (Or.inl (by decide))).1⟩

/-- The resolution-precedence chain the spec describes for `create()`
fields: the explicit argument if truthy, else the stored instance field if
truthy, else the computed default. -/
def resolve (arg stored : Option String) (default : String) : String :=
  if pyTruthy arg then pyStr arg
  else if pyTruthy stored then pyStr stored
  else default

/-- The two-way resolution for the mandatory ids, reachable only after the
missing-required-attribute guard has ensured one side is truthy. -/
def resolveId (arg stored : Option String) : String :=
  if pyTruthy arg then pyStr arg else pyStr stored

/-- Shared characterization of a succeeding `ApiKey.create`: whenever
both mandatory ids are resolvable the call returns the collection URL,
the payload with each field resolved argument → stored → default, and the
state re-read from the response. -/
theorem create_resolves (k : ApiKey)
    (owner_id resource_id display_name description : Option String)
    (resp : ApiKeyEntity)
    (ho : pyTruthy owner_id = true ∨ pyTruthy k._owner_id = true)
    (hr : pyTruthy resource_id = true ∨ pyTruthy k._resource_id = true) :
    k.create owner_id resource_id display_name description resp =
      .ok ((k._client.api_url ++ pyStr k.api_path,
        { spec :=
            { owner := { id := resolveId owner_id k._owner_id }
              resource := { id := resolveId resource_id k._resource_id }
              display_name := resolve display_name k._name
                (resolveId owner_id k._owner_id ++ "::" ++
                  resolveId resource_id k._resource_id)
              description := resolve description k._description
                (pyTitle (pyReplace
                  (resolve display_name k._name
                    (resolveId owner_id k._owner_id ++ "::" ++
                      resolveId resource_id k._resource_id)) "::" " ")) } }),
        { k with
          _id := some resp.id
          _href := some resp.metadata.self
          _owner_id := some resp.spec.owner.id
          _resource_id := some resp.spec.resource.id
          _secret := some resp.spec.secret }) := by
  rcases ho with ho | ho <;> rcases hr with hr | hr <;>
    cases hdn : pyTruthy display_name <;> cases hnm : pyTruthy k._name <;>
    cases hd : pyTruthy description <;> cases hd2 : pyTruthy k._description <;>
    simp [ApiKey.create, ApiKey.owner_id, ApiKey.resource_id, resolve,
      resolveId, ho, hr, hdn, hnm, hd, hd2]

/-- Claim C4: for a Credential `create()` whose owner and resource ids are
resolvable, the payload's fields follow precedence argument → stored →
default; in particular with no display name supplied or stored the
payload's `display_name` is `owner + "::" + resource`, and with no
description supplied or stored the payload's `description` is the display
name with `"::"` replaced by a space and title-cased.  The success state
is returned alongside. -/
theorem C4_create_payload_defaults (k : ApiKey)
    (owner_id resource_id display_name description : Option String)
    (resp : ApiKeyEntity)
    (ho : pyTruthy owner_id = true ∨ pyTruthy k._owner_id = true)
    (hr : pyTruthy resource_id = true ∨ pyTruthy k._resource_id = true) :
    k.create owner_id resource_id display_name description resp =
      .ok ((k._client.api_url ++ pyStr k.api_path,
        { spec :=
            { owner := { id := resolveId owner_id k._owner_id }
              resource := { id := resolveId resource_id k._resource_id }
              display_name := resolve display_name k._name
                (resolveId owner_id k._owner_id ++ "::" ++
                  resolveId resource_id k._resource_id)
              description := resolve description k._description
                (pyTitle (pyReplace
                  (resolve display_name k._name
                    (resolveId owner_id k._owner_id ++ "::" ++
                      resolveId resource_id k._resource_id)) "::" " ")) } }),
        { k with
          _id := some resp.id
          _href := some resp.metadata.self
          _owner_id := some resp.spec.owner.id
          _resource_id := some resp.spec.resource.id
          _secret := some resp.spec.secret }) :=
  create_resolves k owner_id resource_id display_name description resp ho hr

/-- Witness for C4, the spec's concrete instance: `owner_id="o1"`,
`resource_id="r1"` stored, nothing else supplied — the payload's display
name is `"o1::r1"` and its description is `"O1 R1"`, the title-cased form
of `"o1 r1"`. -/
theorem C4_witness :
    demoKey.create none none none none demoKeyResp =
      .ok (("https://api.confluent.cloud/iam/v2/api-keys",
        { spec :=
            { owner := { id := "o1" }
              resource := { id := "r1" }
              display_name := "o1::r1"
              description := "O1 R1" } }),
        { demoKey with
          _id := some "ak-1"
          _href := some "https://x/ak-1"
          _owner_id := some "o1-normalized"
          _resource_id := some "r1-normalized"
          _secret := some "s3cr3t" }) := by
  rw [C4_create_payload_defaults demoKey none none none none demoKeyResp
    (Or.inr (by decide)) (Or.inr (by decide))]
  rfl

/-- Claim C6: a successful Credential `create()` sets the local id and
link from the response's `id` and `metadata.self`, re-reads `_owner_id`
and `_resource_id` from the response's `spec` (not from the request
payload), and sets `_secret` from `spec.secret`; moreover `create` is the
only operation that populates `_secret`: a freshly constructed key has
`_secret = none` and `read`/`update`/`delete` never change it. -/
theorem C6_create_success_state (k : ApiKey)
    (owner_id resource_id display_name description : Option String)
    (resp : ApiKeyEntity)
    (ho : pyTruthy owner_id = true ∨ pyTruthy k._owner_id = true)
    (hr : pyTruthy resource_id = true ∨ pyTruthy k._resource_id = true) :
    (∃ req, k.create owner_id resource_id display_name description resp =
      .ok (req,
        { k with
          _id := some resp.id
          _href := some resp.metadata.self
          _owner_id := some resp.spec.owner.id
          _resource_id := some resp.spec.resource.id
          _secret := some resp.spec.secret })) ∧
    (∀ c a b d e f, (ApiKey.init c a b d e f)._secret = none) ∧
    (∀ (k2 : ApiKey) (d3 : String),
      ((k2.read).2)._secret = k2._secret ∧
      ((k2.update d3).2)._secret = k2._secret ∧
      ((k2.delete).2)._secret = k2._secret) := by
  refine ⟨⟨_, create_resolves k owner_id resource_id display_name
    description resp ho hr⟩, fun _ _ _ _ _ _ => rfl, fun _ _ => ⟨rfl, rfl, rfl⟩⟩

/-- Witness for C6: `create` called with the explicit owner argument
`"oX"`; the final state takes `"o1-normalized"` from the response `spec`,
not the `"oX"` echoed in the request, and the secret comes from the
response. -/
theorem C6_witness :
    (∃ req, demoKey.create (some "oX") none none none demoKeyResp =
      .ok (req,
        { demoKey with
          _id := some "ak-1"
          _href := some "https://x/ak-1"
          _owner_id := some "o1-normalized"
          _resource_id := some "r1-normalized"
          _secret := some "s3cr3t" })) ∧
    ("o1-normalized" : String) ≠ "oX" :=
  ⟨(C6_create_success_state demoKey (some "oX") none none none demoKeyResp
      (Or.inl (by decide)) (Or.inr (by decide))).1,
   by decide⟩

/-- Claim C5: `ServiceAccount.create()` builds the payload
`{display_name, description}` with the description defaulting to the
title-cased display name when no description is stored, POSTs to the
collection URL, and on success sets the local id from the response's `id`
and the link from the response's `metadata.self`, so that `obj_id` and
`href` afterwards reflect the server response. -/
theorem C5_sa_create (s : ServiceAccount) (n : String) (resp : SAEntity)
    (hn : s._name = some n) (hself : resp.metadata.self ≠ "") :
    s.create resp =
      .ok ((s._client.api_url ++ pyStr s.api_path,
        { display_name := some n
          description := if pyTruthy s._description then pyStr s._description
                         else pyTitle n }),
        { s with _href := some resp.metadata.self, _id := some resp.id }) ∧
    ({ s with _href := some resp.metadata.self, _id := some resp.id }
        : ServiceAccount).obj_id = some resp.id ∧
    ({ s with _href := some resp.metadata.self, _id := some resp.id }
        : ServiceAccount).toIamV2Object.href = resp.metadata.self := by
  refine ⟨?_, rfl, ?_⟩
  · cases hd : pyTruthy s._description <;>
      simp [ServiceAccount.create, hn, hd]
  · simp [IamV2Object.href, (pyTruthy_some_iff _).mpr hself]

/-- The stub creation response of the spec's end-to-end scenario. -/
def demoSAResp : SAEntity :=
  { id := "sa-1"
    display_name := "svc-a"
    description := "Svc-a"
    metadata := { self := "https://x/sa-1" } }

/-- Witness for C5: the spec's end-to-end scenario —
`Account(displayName="svc-a")`, `create()` against a stub returning
`id="sa-1"` and `metadata.self="https://x/sa-1"`; afterwards
`obj_id = "sa-1"` and `href = "https://x/sa-1"`, and the payload that was
POSTed carried the title-cased default description `"Svc-A"`. -/
theorem C5_witness :
    demoAccount.create demoSAResp =
      .ok (("https://api.confluent.cloud/iam/v2/service-accounts",
        { display_name := some "svc-a", description := "Svc-A" }),
        { demoAccount with _href := some "https://x/sa-1", _id := some "sa-1" }) ∧
    ({ demoAccount with _href := some "https://x/sa-1", _id := some "sa-1" }
        : ServiceAccount).obj_id = some "sa-1" ∧
    ({ demoAccount with _href := some "https://x/sa-1", _id := some "sa-1" }
        : ServiceAccount).toIamV2Object.href = "https://x/sa-1" := by
  have h := C5_sa_create demoAccount "svc-a" demoSAResp rfl (by decide)
  exact ⟨h.1, h.2.1, h.2.2⟩

/-- Folding an append-one-key step over a list appends the mapped list:
the shape of the `import_api_keys` loop. -/
theorem append_foldl (f : ApiKeyEntity → ApiKey) (l : List ApiKeyEntity)
    (s : ServiceAccount) :
    (l.foldl (fun acc entry =>
        { acc with _api_keys := acc._api_keys ++ [f entry] }) s) =
      { s with _api_keys := s._api_keys ++ l.map f } := by
  induction l generalizing s with
  | nil => simp
  | cons e l ih =>
    rw [List.foldl_cons, ih]
    simp

/-- Claim C9: for an Account with a set id, `import_api_keys()` issues a
GET against `api_keys_path?owner=<id>` and appends, in response order, a
new Credential per entry whose id is the entry's `id`, whose owner is this
Account's id, and whose resource is the entry's `spec.resource.id`; none
of them has an explicit link set — each one's `href` is derived lazily
from its id. -/
theorem C9_import_api_keys (s : ServiceAccount) (i : String)
    (resp : List ApiKeyEntity) (h : s._id = some i) :
    (s.import_api_keys resp).1 =
      s._client.api_url ++ IamV2Object.api_keys_path ++ "?owner=" ++ i ∧
    (s.import_api_keys resp).2 =
      { s with _api_keys := s._api_keys ++ resp.map (fun e =>
          ApiKey.init s._client (some e.id) none none (some i)
            (some e.spec.resource.id)) } ∧
    (∀ e : ApiKeyEntity,
      (ApiKey.init s._client (some e.id) none none (some i)
          (some e.spec.resource.id))._id = some e.id ∧
      (ApiKey.init s._client (some e.id) none none (some i)
          (some e.spec.resource.id))._owner_id = some i ∧
      (ApiKey.init s._client (some e.id) none none (some i)
          (some e.spec.resource.id))._resource_id = some e.spec.resource.id ∧
      (ApiKey.init s._client (some e.id) none none (some i)
          (some e.spec.resource.id))._href = none ∧
      (ApiKey.init s._client (some e.id) none none (some i)
          (some e.spec.resource.id)).toIamV2Object.href =
        s._client.api_url ++ IamV2Object.api_keys_path ++ "/" ++ e.id) := by
  refine ⟨?_, ?_, fun e => ⟨rfl, rfl, rfl, rfl, rfl⟩⟩
  · simp [ServiceAccount.import_api_keys, IamV2Object.obj_id, h]
  · have hobj : s.obj_id = some i := h
    simp only [ServiceAccount.import_api_keys]
    rw [hobj]
    exact append_foldl
      (fun e => ApiKey.init s._client (some e.id) none none (some i)
        (some e.spec.resource.id)) resp s

/-- An account that has already resolved its id, as after `create()` or
`set_from_read`. -/
def demoAccountWithId : ServiceAccount :=
  { demoAccount with _id := some "sa-1" }

/-- Witness for C9: importing one key into an account with id `"sa-1"`
issues the owner-filtered GET and appends the one constructed key. -/
theorem C9_witness :
    (demoAccountWithId.import_api_keys [demoKeyResp]).1 =
      "https://api.confluent.cloud/iam/v2/api-keys?owner=sa-1" ∧
    (demoAccountWithId.import_api_keys [demoKeyResp]).2 =
      { demoAccountWithId with _api_keys :=
          [ApiKey.init demoClient (some "ak-1") none none (some "sa-1")
            (some "r1-normalized")] } := by
  have h := C9_import_api_keys demoAccountWithId "sa-1" [demoKeyResp] rfl
  constructor
  · rw [h.1]
    rfl
  · rw [h.2.1]
    rfl

/-- Adopting from one entry and then another is the same as adopting from
the second alone: each adoption overwrites all four adopted fields. -/
theorem adoptFrom_adoptFrom (s : ServiceAccount) (e1 e2 : SAEntity) :
    (s.adoptFrom e1).adoptFrom e2 = s.adoptFrom e2 := rfl

/-- The `set_from_read` scan: folding the adopt-on-match step over the
listing leaves the state unchanged when no entry matches, and otherwise
ends in the adoption of the LAST matching entry. -/
theorem adopt_foldl (dn : Option String) (l : List SAEntity)
    (s : ServiceAccount) :
    l.foldl (fun acc e =>
        if some e.display_name = dn then acc.adoptFrom e else acc) s =
      match (l.filter (fun e => some e.display_name = dn)).getLast? with
      | none => s
      | some e => s.adoptFrom e := by
  induction l generalizing s with
  | nil => rfl
  | cons e l ih =>
    rw [List.foldl_cons, List.filter_cons]
    by_cases h : some e.display_name = dn
    · rw [if_pos h, if_pos (by simpa using h), ih, List.getLast?_cons]
      cases hfl : (l.filter (fun e => some e.display_name = dn)).getLast? with
      | none => simp [hfl]
      | some e2 => simp [hfl, adoptFrom_adoptFrom]
    · rw [if_neg h, if_neg (by simpa using h), ih]

/-- A listing with two entries both carrying the display name `"svc-a"`. -/
def dupListing : List SAEntity :=
  [{ id := "sa-1"
     display_name := "svc-a"
     description := "first"
     metadata := { self := "https://x/sa-1" } },
   { id := "sa-2"
     display_name := "svc-a"
     description := "second"
     metadata := { self := "https://x/sa-2" } }]

/-- A placeholder `read()` oracle for runs that never take the read-by-id
branch. -/
def blankEntity : SAEntity :=
  { id := ""
    display_name := ""
    description := ""
    metadata := { self := "" } }

/-- Claim C1 as stated is false: the loop in `set_from_read` has no
`break`, so when two listing entries both match the display name the
fields are adopted from the SECOND (last) match, not the first.  Here the
listing holds `sa-1` and then `sa-2`, both named `"svc-a"`, and the final
state carries `sa-2`'s id, link and description, not `sa-1`'s. -/
theorem C1_counterexample :
    demoAccount.set_from_read none none blankEntity dupListing =
      .ok (.listCall "https://api.confluent.cloud/iam/v2/service-accounts",
        demoAccount.adoptFrom
          { id := "sa-2"
            display_name := "svc-a"
            description := "second"
            metadata := { self := "https://x/sa-2" } }) ∧
    (demoAccount.adoptFrom
        { id := "sa-2"
          display_name := "svc-a"
          description := "second"
          metadata := { self := "https://x/sa-2" } })._id = some "sa-2" ∧
    (some "sa-2" : Option String) ≠ some "sa-1" :=
  ⟨rfl, rfl, by decide⟩

/-- Claim C1 (amended): on an Account with no usable id, `set_from_read`
with an available display name calls `list()` and scans the returned
collection, adopting the local fields (`_href`, `_id`, `_description`,
`_name`) from every entry whose display name matches exactly, so that the
final state reflects the LAST matching entry (the loop has no `break`);
if no entry matches, local state is unchanged; and when neither an id nor
a display name is available the call is a no-op performing no network
call. -/
theorem C1_set_from_read_amended (s : ServiceAccount)
    (display_name account_id : Option String)
    (rr : SAEntity) (lr : List SAEntity)
    (hid1 : pyTruthy account_id = false) (hid2 : pyTruthy s._id = false) :
    (pyTruthy (if pyTruthy display_name then display_name else s._name)
        = false →
      s.set_from_read display_name account_id rr lr = .ok (.noCall, s)) ∧
    (pyTruthy (if pyTruthy display_name then display_name else s._name)
        = true →
      pyTruthy s.api_path = true →
      s.set_from_read display_name account_id rr lr =
        .ok (.listCall (s._client.api_url ++ pyStr s.api_path),
          match (lr.filter (fun e => some e.display_name =
              (if pyTruthy display_name then display_name
               else s._name))).getLast? with
          | none => s
          | some e => s.adoptFrom e)) := by
  constructor
  · intro hdn
    simp [ServiceAccount.set_from_read, IamV2Object.obj_id, hid1, hid2, hdn]
  · intro hdn hpath
    simp only [ServiceAccount.set_from_read, IamV2Object.obj_id, hid1, hid2,
      hdn, if_false, if_true, Bool.false_eq_true, IamV2Object.listReq, hpath,
      adopt_foldl]

/-- Witness for the amended C1: an account with neither id nor name is
left untouched with no call performed, and an account named `"svc-a"`
scanned against an empty listing (no match) is left unchanged after its
`list()` call. -/
theorem C1_witness :
    (ServiceAccount.init demoClient none none none).set_from_read
        none none blankEntity [] =
      .ok (.noCall, ServiceAccount.init demoClient none none none) ∧
    demoAccount.set_from_read none none blankEntity [] =
      .ok (.listCall "https://api.confluent.cloud/iam/v2/service-accounts",
        demoAccount) := by
  constructor
  · exact (C1_set_from_read_amended (ServiceAccount.init demoClient none none none)
      none none blankEntity [] rfl rfl).1 rfl
  · have h := (C1_set_from_read_amended demoAccount none none blankEntity []
      rfl rfl).2 (by decide) (by decide)
    rw [h]
    rfl
